import Mathlib

/-!
Verification model of the Council Server subsystem
(`src-tauri/src/council_server/` of the lifeos-plugin repository).

The Rust sources are embedded shallowly:

* `types.rs` structs become Lean structures (`CouncilResponse`,
  `PromptResponse`, `LLMAuthStatus`, ...); `serde_json::Value` becomes the
  inductive `Json` below (numbers modelled as `Int`, which covers every
  numeric field the council protocol actually uses).
* The two in-memory pending tables (`HashMap<String, PendingRequest>` and
  `HashMap<String, PendingProxyRequest>` in `state.rs`) become association
  lists with insert-overwrite semantics; `tokio::sync::oneshot` senders are
  modelled by an opaque channel identifier (`Nat`), and a resolution of a
  oneshot channel is recorded in the function's result instead of being a
  side effect.
* The SQLite table of `persistence.rs` becomes a list of `DbRow`; the SQL
  statements are translated operation by operation (the `INSERT` enforcing
  the primary key, the `UPDATE ... WHERE id = ?` statements as maps over the
  rows, the retention `DELETE` as a filter against the `keep_count` most
  recently created ids).  I/O failures of SQLite are not modelled; the one
  semantic failure, a primary-key violation on insert, is.
* `async` handlers become pure functions over an explicit environment that
  fixes the points where the Rust code awaits the outside world (the send
  result and whether/what the extension answered before the timeout).
-/

set_option autoImplicit false

namespace CouncilServer

/-- Model of Rust `str::trim` as used by `prompt_handler` on the incoming
query: drop whitespace characters from both ends of the string. -/
def rustTrim (s : String) : String :=
  ⟨((s.data.dropWhile Char.isWhitespace).reverse.dropWhile Char.isWhitespace).reverse⟩

/-- Model of `serde_json::Value`.  JSON numbers are modelled as integers,
which is faithful for every numeric field of the council wire protocol
(timestamps, durations, counts). -/
inductive Json where
  | null : Json
  | bool (b : Bool) : Json
  | num (n : Int) : Json
  | str (s : String) : Json
  | arr (items : List Json) : Json
  | obj (fields : List (String × Json)) : Json

/-- Field lookup on a JSON object, modelling `serde_json::Value::get`. -/
def Json.getField : Json → String → Option Json
  | .obj fields, key => fields.lookup key
  | _, _ => none

/-- Model of `serde_json::Value::as_str`. -/
def Json.asStr : Json → Option String
  | .str s => some s
  | _ => none

/-- Model of boolean extraction (serde deserialization of a `bool` field). -/
def Json.asBool : Json → Option Bool
  | .bool b => some b
  | _ => none

/-- Model of integer extraction (serde deserialization of an integer field). -/
def Json.asInt : Json → Option Int
  | .num n => some n
  | _ => none

/-- Model of `u64` extraction: serde rejects negative numbers for `u64`. -/
def Json.asNat : Json → Option Nat
  | .num n => if 0 ≤ n then some n.toNat else none
  | _ => none

/-- Mirrors `WSMessage` in `types.rs`: the inbound/outbound envelope with a
required `type`, optional `payload` and optional top-level `requestId`. -/
structure WSMessage where
  msg_type : String
  payload : Option Json
  request_id : Option String

/-- Mirrors `Stage1Result` in `types.rs`. -/
structure Stage1Result where
  model : String
  llm_type : String
  response : String

/-- Mirrors `Stage2Result` in `types.rs` (`evaluations` is a vector of raw
JSON values). -/
structure Stage2Result where
  model : String
  llm_type : String
  ranking : String
  parsed_ranking : List String
  evaluations : List Json

/-- Mirrors `Stage3Result` in `types.rs`. -/
structure Stage3Result where
  model : String
  llm_type : String
  response : String

/-- Mirrors `AggregateRanking` in `types.rs` (`averageRank` is numeric; it is
modelled as `Int` like every other JSON number here). -/
structure AggregateRanking where
  model : String
  llm_type : String
  average_rank : Int
  rankings_count : Int

/-- Mirrors `CouncilMetadata` in `types.rs`. -/
structure CouncilMetadata where
  label_to_model : Json
  aggregate_rankings : List AggregateRanking

/-- Mirrors `CouncilResponse` in `types.rs`: the full council response the
extension sends back inside a `council_response` payload. -/
structure CouncilResponse where
  request_id : String
  success : Bool
  stage1 : Option (List Stage1Result)
  stage2 : Option (List Stage2Result)
  stage3 : Option (List Stage3Result)
  metadata : Option CouncilMetadata
  error : Option String
  duration : Option Nat

/-- Mirrors `PromptRequestBody` in `types.rs`. -/
structure PromptRequestBody where
  query : String
  tier : Option String
  timeout : Option Nat

/-- Mirrors `PromptResponse` in `types.rs`: the body of every `/prompt`
HTTP response, success or failure. -/
structure PromptResponse where
  success : Bool
  request_id : Option String
  stage1 : Option (List Stage1Result)
  stage2 : Option (List Stage2Result)
  stage3 : Option (List Stage3Result)
  metadata : Option CouncilMetadata
  error : Option String
  error_code : Option String
  duration : Option Nat

/-- Mirrors `LLMAuthStatus` in `types.rs`. -/
structure LLMAuthStatus where
  chatgpt : Bool
  claude : Bool
  gemini : Bool
  timestamp : Int

/-- Mirrors `AuthStatusResponse` in `types.rs`. -/
structure AuthStatusResponse where
  success : Bool
  status : Option LLMAuthStatus
  extension_connected : Bool
  error : Option String

/-- Mirrors the `ErrorCode` enum in `types.rs`. -/
inductive ErrorCode where
  | invalidRequest
  | noExtension
  | timeoutCode
  | councilError
  | serverError

/-- Mirrors `impl Display for ErrorCode` in `types.rs`. -/
def ErrorCode.text : ErrorCode → String
  | .invalidRequest => "INVALID_REQUEST"
  | .noExtension => "NO_EXTENSION"
  | .timeoutCode => "TIMEOUT"
  | .councilError => "COUNCIL_ERROR"
  | .serverError => "SERVER_ERROR"

/-! ### Serde deserialization model

These functions model `serde_json::from_value` for the derived
`Deserialize` impls in `types.rs`: a required field fails the whole parse
when missing or of the wrong shape, an `Option` field parses to `none`
when absent or `null`, arrays parse elementwise. -/

/-- Parse one `Stage1Result` from JSON. -/
def parseStage1 (j : Json) : Except String Stage1Result :=
  match (j.getField "model").bind Json.asStr,
        (j.getField "llmType").bind Json.asStr,
        (j.getField "response").bind Json.asStr with
  | some m, some t, some r => .ok ⟨m, t, r⟩
  | _, _, _ => .error "invalid Stage1Result"

/-- Parse a JSON array elementwise. -/
def parseArr {α : Type} (p : Json → Except String α) : Json → Except String (List α)
  | .arr items => items.mapM p
  | _ => .error "expected array"

/-- Parse one `Stage2Result` from JSON. -/
def parseStage2 (j : Json) : Except String Stage2Result :=
  match (j.getField "model").bind Json.asStr,
        (j.getField "llmType").bind Json.asStr,
        (j.getField "ranking").bind Json.asStr,
        (j.getField "parsedRanking").map (parseArr (fun v =>
          match v.asStr with
          | some s => .ok s
          | none => Except.error "expected string")),
        (j.getField "evaluations").map (parseArr .ok) with
  | some m, some t, some r, some (.ok pr), some (.ok ev) => .ok ⟨m, t, r, pr, ev⟩
  | _, _, _, _, _ => .error "invalid Stage2Result"

/-- Parse one `Stage3Result` from JSON. -/
def parseStage3 (j : Json) : Except String Stage3Result :=
  match (j.getField "model").bind Json.asStr,
        (j.getField "llmType").bind Json.asStr,
        (j.getField "response").bind Json.asStr with
  | some m, some t, some r => .ok ⟨m, t, r⟩
  | _, _, _ => .error "invalid Stage3Result"

/-- Parse one `AggregateRanking` from JSON. -/
def parseAggregateRanking (j : Json) : Except String AggregateRanking :=
  match (j.getField "model").bind Json.asStr,
        (j.getField "llmType").bind Json.asStr,
        (j.getField "averageRank").bind Json.asInt,
        (j.getField "rankingsCount").bind Json.asInt with
  | some m, some t, some a, some c => .ok ⟨m, t, a, c⟩
  | _, _, _, _ => .error "invalid AggregateRanking"

/-- Parse a `CouncilMetadata` from JSON. -/
def parseCouncilMetadata (j : Json) : Except String CouncilMetadata :=
  match j.getField "labelToModel",
        (j.getField "aggregateRankings").map (parseArr parseAggregateRanking) with
  | some l, some (.ok rs) => .ok ⟨l, rs⟩
  | _, _ => .error "invalid CouncilMetadata"

/-- Parse an optional field: absent or `null` is `none`, anything else must
parse with `p`. -/
def parseOptField {α : Type} (j : Json) (key : String)
    (p : Json → Except String α) : Except String (Option α) :=
  match j.getField key with
  | none => .ok none
  | some .null => .ok none
  | some v => (p v).map some

/-- Model of `serde_json::from_value::<CouncilResponse>` on a
`council_response` payload: `requestId` and `success` are required, every
other field is optional. -/
def parseCouncilResponse (j : Json) : Except String CouncilResponse := do
  let rid ← match (j.getField "requestId").bind Json.asStr with
    | some s => Except.ok s
    | none => Except.error "missing field requestId"
  let succ ← match (j.getField "success").bind Json.asBool with
    | some b => Except.ok b
    | none => Except.error "missing field success"
  let s1 ← parseOptField j "stage1" (parseArr parseStage1)
  let s2 ← parseOptField j "stage2" (parseArr parseStage2)
  let s3 ← parseOptField j "stage3" (parseArr parseStage3)
  let md ← parseOptField j "metadata" parseCouncilMetadata
  let err ← parseOptField j "error" (fun v =>
    match v.asStr with
    | some s => .ok s
    | none => .error "expected string")
  let dur ← parseOptField j "duration" (fun v =>
    match v.asNat with
    | some n => .ok n
    | none => .error "expected u64")
  pure ⟨rid, succ, s1, s2, s3, md, err, dur⟩

/-- Model of `serde_json::from_value::<LLMAuthStatus>(payload).ok()` in
`auth_status_handler`. -/
def parseLLMAuthStatus (j : Json) : Option LLMAuthStatus :=
  match (j.getField "chatgpt").bind Json.asBool,
        (j.getField "claude").bind Json.asBool,
        (j.getField "gemini").bind Json.asBool,
        (j.getField "timestamp").bind Json.asInt with
  | some c, some l, some g, some t => some ⟨c, l, g, t⟩
  | _, _, _, _ => none

/-- Model of `serde_json::from_str::<WSMessage>` in `handle_ws_message`:
the envelope needs a string `type`; `payload` and `requestId` are optional
(`requestId` must be a string when present). -/
def parseWSMessage (j : Json) : Except String WSMessage :=
  match (j.getField "type").bind Json.asStr with
  | none => .error "missing field type"
  | some t =>
    match j.getField "requestId" with
    | some v =>
      match v.asStr with
      | some rid => .ok ⟨t, j.getField "payload", some rid⟩
      | none =>
        match v with
        | .null => .ok ⟨t, j.getField "payload", none⟩
        | _ => .error "invalid requestId"
    | none => .ok ⟨t, j.getField "payload", none⟩

/-! ### Connection registry (`state.rs`)

`ExtensionConnection.tx` (an `mpsc::UnboundedSender`) and the
`oneshot::Sender` stored in a pending entry are modelled by opaque channel
identifiers; resolving a oneshot channel is recorded in the caller's result
value instead of being a side effect. -/

/-- Mirrors `ExtensionConnection` in `state.rs`. -/
structure ExtensionConnection where
  tx : Nat

/-- Mirrors `PendingRequest` in `state.rs`: the stored correlation id plus
the oneshot completion channel. -/
structure PendingRequest where
  request_id : String
  chan : Nat

/-- Mirrors `PendingProxyRequest` in `state.rs`. -/
structure PendingProxyRequest where
  chan : Nat

/-- Mirrors `CouncilServerState` in `state.rs` (the `start_time` field plays
no role in any claim under verification and carries no behavior, so it is
not repeated here; `uptime_ms` is not modelled). -/
structure CouncilServerState where
  extension_ws : Option ExtensionConnection
  pending_requests : List (String × PendingRequest)
  pending_proxy_requests : List (String × PendingProxyRequest)

/-- Mirrors `CouncilServerState::new`. -/
def CouncilServerState.new : CouncilServerState :=
  { extension_ws := none, pending_requests := [], pending_proxy_requests := [] }

/-- Mirrors `is_extension_connected` in `state.rs`. -/
def isExtensionConnected (s : CouncilServerState) : Bool :=
  s.extension_ws.isSome

/-- Mirrors `set_extension` in `state.rs`: wholesale replacement of the
single connection slot. -/
def setExtension (s : CouncilServerState) (conn : ExtensionConnection) : CouncilServerState :=
  { s with extension_ws := some conn }

/-- Mirrors `clear_extension` in `state.rs`: unconditionally empties the
connection slot. -/
def clearExtension (s : CouncilServerState) : CouncilServerState :=
  { s with extension_ws := none }

/-- Mirrors `HashMap::insert` on a pending table: overwrite any previous
entry under the same key. -/
def tableInsert {α : Type} (tbl : List (String × α)) (k : String) (v : α) :
    List (String × α) :=
  (k, v) :: tbl.filter (fun p => p.1 != k)

/-- Mirrors `HashMap::remove` on a pending table: return the stored entry
(if any) and the table without it. -/
def tableTake {α : Type} (tbl : List (String × α)) (k : String) :
    Option α × List (String × α) :=
  (tbl.lookup k, tbl.filter (fun p => p.1 != k))

/-- Mirrors `add_pending_request` in `state.rs`. -/
def addPendingRequest (s : CouncilServerState) (requestId : String) (chan : Nat) :
    CouncilServerState :=
  { s with pending_requests :=
      tableInsert s.pending_requests requestId ⟨requestId, chan⟩ }

/-- Mirrors `take_pending_request` in `state.rs`: remove and return. -/
def takePendingRequest (s : CouncilServerState) (requestId : String) :
    Option PendingRequest × CouncilServerState :=
  let (v, tbl) := tableTake s.pending_requests requestId
  (v, { s with pending_requests := tbl })

/-- Mirrors `add_pending_proxy_request` in `state.rs`. -/
def addPendingProxyRequest (s : CouncilServerState) (requestId : String) (chan : Nat) :
    CouncilServerState :=
  { s with pending_proxy_requests :=
      tableInsert s.pending_proxy_requests requestId ⟨chan⟩ }

/-- Mirrors `take_pending_proxy_request` in `state.rs`: remove and return. -/
def takePendingProxyRequest (s : CouncilServerState) (requestId : String) :
    Option PendingProxyRequest × CouncilServerState :=
  let (v, tbl) := tableTake s.pending_proxy_requests requestId
  (v, { s with pending_proxy_requests := tbl })

/-- The failure value `reject_all_pending` sends on a council oneshot
channel (`state.rs`, lines 130-139). -/
def rejectionResponse (requestId reason : String) : CouncilResponse :=
  { request_id := requestId, success := false, stage1 := none, stage2 := none,
    stage3 := none, metadata := none, error := some reason, duration := none }

/-- Mirrors `reject_all_pending` in `state.rs`: drain both pending tables,
resolving every council channel with a failure `CouncilResponse` carrying
the reason and every proxy channel with the JSON object
`{"error": reason}`.  The resolutions are returned as
(channel, value) pairs. -/
def rejectAllPending (s : CouncilServerState) (reason : String) :
    CouncilServerState × List (Nat × CouncilResponse) × List (Nat × Json) :=
  ({ s with pending_requests := [], pending_proxy_requests := [] },
   s.pending_requests.map (fun p => (p.2.chan, rejectionResponse p.2.request_id reason)),
   s.pending_proxy_requests.map (fun p => (p.2.chan, Json.obj [("error", Json.str reason)])))

/-! ### Persistence store (`persistence.rs`)

The `council_requests` SQLite table is a list of rows; each Rust function
translates its SQL statement.  SQLite I/O failures are not modelled; the
primary-key violation of `save_request` (the one semantic failure) is. -/

/-- One row of the `council_requests` table. -/
structure DbRow where
  id : String
  query : String
  tier : String
  status : String
  stage1 : Option (List Stage1Result)
  stage2 : Option (List Stage2Result)
  stage3 : Option (List Stage3Result)
  metadata : Option CouncilMetadata
  error : Option String
  duration : Option Nat
  created_at : Int
  updated_at : Int

/-- The persisted table. -/
abbrev Db := List DbRow

/-- The row `save_request` inserts: status `pending`, both timestamps set
to now, every response column `NULL`. -/
def freshRow (id qry tier : String) (now : Int) : DbRow :=
  { id := id, query := qry, tier := tier, status := "pending",
    stage1 := none, stage2 := none, stage3 := none, metadata := none,
    error := none, duration := none, created_at := now, updated_at := now }

/-- Mirrors `save_request`: `INSERT` of a fresh `pending` row; fails when
the primary key `id` already exists. -/
def saveRequest (db : Db) (id qry tier : String) (now : Int) : Except String Db :=
  if db.any (fun r => r.id == id) then
    .error "UNIQUE constraint failed: council_requests.id"
  else
    .ok (db ++ [freshRow id qry tier now])

/-- Row transformer of `update_request_processing`'s `UPDATE` statement. -/
def processingRow (id : String) (now : Int) (r : DbRow) : DbRow :=
  if r.id == id then { r with status := "processing", updated_at := now } else r

/-- Mirrors `update_request_processing`: set status `processing` on the
matching row; affecting zero rows is not an error. -/
def updateRequestProcessing (db : Db) (id : String) (now : Int) : Db :=
  db.map (processingRow id now)

/-- Row transformer of `update_request_completed`'s `UPDATE` statement. -/
def completedRow (id : String) (resp : CouncilResponse) (now : Int) (r : DbRow) : DbRow :=
  if r.id == id then
    { r with
      status := "completed", stage1 := resp.stage1, stage2 := resp.stage2,
      stage3 := resp.stage3, metadata := resp.metadata, duration := resp.duration,
      updated_at := now }
  else r

/-- Mirrors `update_request_completed`: store the stage outputs and set
status `completed` on the matching row. -/
def updateRequestCompleted (db : Db) (id : String) (resp : CouncilResponse) (now : Int) : Db :=
  db.map (completedRow id resp now)

/-- Row transformer of `update_request_error`'s `UPDATE` statement. -/
def errorRow (id msg : String) (now : Int) (r : DbRow) : DbRow :=
  if r.id == id then { r with status := "error", error := some msg, updated_at := now } else r

/-- Mirrors `update_request_error`: set status `error` and the error text on
the matching row. -/
def updateRequestError (db : Db) (id msg : String) (now : Int) : Db :=
  db.map (errorRow id msg now)

/-- Insert a row into a list sorted by `created_at` descending (rows already
in the list win ties, matching an arbitrary-but-fixed SQL tie order). -/
def insertByCreatedDesc (r : DbRow) : List DbRow → List DbRow
  | [] => [r]
  | x :: xs =>
    if r.created_at ≤ x.created_at then x :: insertByCreatedDesc r xs
    else r :: x :: xs

/-- Sort the table by `created_at` descending, modelling
`ORDER BY created_at DESC`. -/
def sortByCreatedDesc : List DbRow → List DbRow
  | [] => []
  | x :: xs => insertByCreatedDesc x (sortByCreatedDesc xs)

/-- Mirrors `cleanup_old_requests`: `DELETE FROM council_requests WHERE id
NOT IN (SELECT id ... ORDER BY created_at DESC LIMIT keep_count)`. -/
def cleanupOldRequests (keepCount : Nat) (db : Db) : Db :=
  let keptIds := ((sortByCreatedDesc db).take keepCount).map DbRow.id
  db.filter (fun r => keptIds.contains r.id)

/-- Mirrors `delete_request`: `DELETE ... WHERE id = ?`, reporting whether a
row was deleted. -/
def deleteRequest (db : Db) (id : String) : Bool × Db :=
  (db.any (fun r => r.id == id), db.filter (fun r => r.id != id))

/-! ### Inbound WebSocket dispatch (`websocket.rs`) -/

/-- What `handle_council_response` did, beyond its state change. -/
inductive CouncilRespAction where
  | droppedNoPayload
  | droppedNoRequestId
  | resolved (chan : Nat) (resp : CouncilResponse)
  | noPending (requestId : String)

/-- Mirrors `handle_council_response` in `websocket.rs`: extract `requestId`
from the payload (drop the message if impossible), parse the full
`CouncilResponse` — synthesizing a failure response carrying the parse
error when parsing fails — then take and resolve the matching pending
council entry, or log-and-drop when none is pending. -/
def handleCouncilResponse (s : CouncilServerState) (msg : WSMessage) :
    CouncilServerState × CouncilRespAction :=
  match msg.payload with
  | none => (s, .droppedNoPayload)
  | some payload =>
    match (payload.getField "requestId").bind Json.asStr with
    | none => (s, .droppedNoRequestId)
    | some rid =>
      let response :=
        match parseCouncilResponse payload with
        | .ok r => r
        | .error e =>
          { request_id := rid, success := false, stage1 := none, stage2 := none,
            stage3 := none, metadata := none,
            error := some ("Failed to parse response: " ++ e), duration := none }
      match takePendingRequest s rid with
      | (some pending, s') => (s', .resolved pending.chan response)
      | (none, s') => (s', .noPending rid)

/-- What `handle_proxy_response` did, beyond its state change. -/
inductive ProxyRespAction where
  | droppedNoRequestId
  | resolved (chan : Nat) (payload : Json)
  | noPending (requestId : String)

/-- Mirrors `handle_proxy_response` in `websocket.rs`: resolve the matching
pending proxy entry with the raw payload (or an empty object). -/
def handleProxyResponse (s : CouncilServerState) (msg : WSMessage) :
    CouncilServerState × ProxyRespAction :=
  match msg.request_id with
  | none => (s, .droppedNoRequestId)
  | some rid =>
    let payload := msg.payload.getD (Json.obj [])
    match takePendingProxyRequest s rid with
    | (some pending, s') => (s', .resolved pending.chan payload)
    | (none, s') => (s', .noPending rid)

/-- What `handle_ws_message` did for one inbound text frame. -/
inductive WsAction where
  | parseFailed (e : String)
  | informational
  | sentPong
  | council (a : CouncilRespAction)
  | proxy (a : ProxyRespAction)
  | unknownType (t : String)

/-- Mirrors `handle_ws_message` in `websocket.rs`: parse the envelope and
dispatch on its `type`.  Malformed JSON is logged and discarded. -/
def handleWsMessage (s : CouncilServerState) (j : Json) :
    CouncilServerState × WsAction :=
  match parseWSMessage j with
  | .error e => (s, .parseFailed e)
  | .ok m =>
    match m.msg_type with
    | "extension_ready" => (s, .informational)
    | "ping" => (s, .sentPong)
    | "pong" => (s, .informational)
    | "council_response" =>
      let (s', a) := handleCouncilResponse s m
      (s', .council a)
    | "council_progress" => (s, .informational)
    | "auth_status" | "history_list" | "conversation_data" | "delete_result" =>
      let (s', a) := handleProxyResponse s m
      (s', .proxy a)
    | t => (s, .unknownType t)

/-- The events one extension WebSocket session can observe, mirroring the
`match result` arms of the receive loop in `handle_extension_socket`. -/
inductive SocketEvent where
  | text (j : Json)
  | pingFrame
  | closeFrame
  | readError
  | otherFrame

/-- The receive loop of `handle_extension_socket`: process frames until a
close frame or a read error breaks the loop (or the stream ends). -/
def runSocketEvents (s : CouncilServerState) : List SocketEvent → CouncilServerState
  | [] => s
  | e :: rest =>
    match e with
    | .text j => runSocketEvents (handleWsMessage s j).1 rest
    | .pingFrame => runSocketEvents s rest
    | .closeFrame => s
    | .readError => s
    | .otherFrame => runSocketEvents s rest

/-- The unconditional cleanup `handle_extension_socket` runs after its
receive loop terminates (`websocket.rs`, lines 67-69): empty the connection
slot, then reject every pending entry of both tables with reason
`"Extension disconnected"`.  The cleanup takes no account of whether the
slot still holds this session's own connection. -/
def sessionDisconnectCleanup (s : CouncilServerState) :
    CouncilServerState × List (Nat × CouncilResponse) × List (Nat × Json) :=
  rejectAllPending (clearExtension s) "Extension disconnected"

/-- Mirrors `handle_extension_socket` end to end: store this session's
connection in the slot, run the receive loop, then run the disconnect
cleanup on whatever state the loop left behind. -/
def handleExtensionSocket (s : CouncilServerState) (connTx : Nat)
    (events : List SocketEvent) :
    CouncilServerState × List (Nat × CouncilResponse) × List (Nat × Json) :=
  sessionDisconnectCleanup (runSocketEvents (setExtension s ⟨connTx⟩) events)

/-! ### Request orchestrator (`handlers.rs`)

Each async handler awaits the outside world at fixed points: the result of
`send_to_extension` and the outcome of `tokio::time::timeout(_, rx)`.  An
environment value fixes those outcomes, making the handler a pure function
from (state, database, body, environment) to (HTTP status, body, new
database, new state).  The `state` field of the result records only the
mutations performed by the handler itself, exactly as in the Rust code;
resolution of the pending entry by the WebSocket dispatcher is
`handleCouncilResponse`'s business. -/

/-- `DEFAULT_TIMEOUT_MS` in `handlers.rs`. -/
def DEFAULT_TIMEOUT_MS : Nat := 120000

/-- `MAX_TIMEOUT_MS` in `handlers.rs`. -/
def MAX_TIMEOUT_MS : Nat := 300000

/-- `PROXY_TIMEOUT_MS` in `handlers.rs`. -/
def PROXY_TIMEOUT_MS : Nat := 10000

/-- Outcome of `tokio::time::timeout(_, rx).await` for a council request:
the extension's response arrived in time (`Ok(Ok(_))`), the oneshot sender
was dropped without a value (`Ok(Err(_))`), or the timeout expired
(`Err(_)`). -/
inductive PromptOutcome where
  | delivered (resp : CouncilResponse)
  | channelClosed
  | timedOut

/-- The environment of one `prompt_handler` run: whether the send to the
extension succeeded, what the await produced, and the measured elapsed
milliseconds. -/
structure PromptEnv where
  sendResult : Option String
  outcome : PromptOutcome
  elapsedMs : Nat

/-- The observable result of one `prompt_handler` run. -/
structure PromptResult where
  httpStatus : Nat
  body : PromptResponse
  db : Db
  state : CouncilServerState

/-- Mirrors `error_response` in `handlers.rs`. -/
def errorResponseBody (message : String) (code : ErrorCode)
    (requestId : Option String) : PromptResponse :=
  { success := false, request_id := requestId, stage1 := none, stage2 := none,
    stage3 := none, metadata := none, error := some message,
    error_code := some code.text, duration := none }

/-- Mirrors `prompt_handler` in `handlers.rs`, line by line: validate the
trimmed query, check the connection, clamp the timeout, persist `pending`
then `processing` (logging but surviving persistence failures), register
the pending entry, send to the extension (deregistering and answering 500
on failure), then branch on the awaited outcome. -/
def promptHandler (s : CouncilServerState) (db : Db) (body : PromptRequestBody)
    (requestId : String) (chan : Nat) (now : Int) (env : PromptEnv) : PromptResult :=
  let qry := rustTrim body.query
  if qry.isEmpty then
    ⟨400, errorResponseBody "Query is required" .invalidRequest none, db, s⟩
  else if !(isExtensionConnected s) then
    ⟨503, errorResponseBody "Extension not connected" .noExtension none, db, s⟩
  else
    let timeoutMs := min (body.timeout.getD DEFAULT_TIMEOUT_MS) MAX_TIMEOUT_MS
    let db1 :=
      match saveRequest db requestId qry (body.tier.getD "normal") now with
      | .ok d => d
      | .error _ => db
    let db2 := updateRequestProcessing db1 requestId now
    let s1 := addPendingRequest s requestId chan
    match env.sendResult with
    | some e =>
      let s2 := (takePendingRequest s1 requestId).2
      let db3 := updateRequestError db2 requestId e now
      ⟨500, errorResponseBody e .serverError (some requestId), db3, s2⟩
    | none =>
      match env.outcome with
      | .delivered r =>
        let db3 :=
          if r.success then updateRequestCompleted db2 requestId r now
          else updateRequestError db2 requestId (r.error.getD "Unknown error") now
        let db4 := cleanupOldRequests 50 db3
        ⟨200,
         { success := r.success, request_id := some requestId,
           stage1 := r.stage1, stage2 := r.stage2, stage3 := r.stage3,
           metadata := r.metadata, error := r.error,
           error_code := if r.success then none else some ErrorCode.councilError.text,
           duration := some env.elapsedMs },
         db4, s1⟩
      | .channelClosed =>
        let db3 := updateRequestError db2 requestId "Request cancelled" now
        ⟨500, errorResponseBody "Request cancelled" .serverError (some requestId), db3, s1⟩
      | .timedOut =>
        let s2 := (takePendingRequest s1 requestId).2
        let msg := "Request timed out after " ++ toString timeoutMs ++ "ms"
        let db3 := updateRequestError db2 requestId msg now
        ⟨504, errorResponseBody msg .timeoutCode (some requestId), db3, s2⟩

/-- Outcome of `tokio::time::timeout(_, rx).await` for a proxy request. -/
inductive ProxyOutcome where
  | delivered (payload : Json)
  | channelClosed
  | timedOut

/-- The environment of one `auth_status_handler` run. -/
structure AuthEnv where
  sendResult : Option String
  outcome : ProxyOutcome

/-- Mirrors `auth_status_handler` in `handlers.rs`.  Every branch answers
with `Json(...)`, hence HTTP 200; the pair returned is
(HTTP status, response body). -/
def authStatusHandler (s : CouncilServerState) (nowTs : Int) (env : AuthEnv) :
    Nat × AuthStatusResponse :=
  if !(isExtensionConnected s) then
    (200, { success := false,
            status := some { chatgpt := false, claude := false, gemini := false,
                             timestamp := nowTs },
            extension_connected := false,
            error := some "Extension not connected" })
  else
    match env.sendResult with
    | some e =>
      (200, { success := false, status := none, extension_connected := true,
              error := some e })
    | none =>
      match env.outcome with
      | .delivered payload =>
        let st := parseLLMAuthStatus payload
        (200, { success := st.isSome, status := st, extension_connected := true,
                error := none })
      | _ =>
        (200, { success := false, status := none, extension_connected := true,
                error := some "Timeout waiting for auth status" })

/-! ### Lifecycle manager (`server.rs`)

The three process-wide globals of `state.rs` / `server.rs` —
`SERVER_RUNNING`, `SHUTDOWN_TX` and `SERVER_STATE` — become one record.
The oneshot shutdown channel and the shared state instance are opaque
identifiers. -/

/-- The process-wide server globals. -/
structure ServerGlobals where
  running : Bool
  shutdownTx : Option Nat
  serverState : Option Nat

/-- Mirrors `is_server_running` in `state.rs`. -/
def isServerRunning (g : ServerGlobals) : Bool := g.running

/-- Mirrors `start_server` in `server.rs` as a whole run: the early
already-running check, database initialization, publication of a fresh
shutdown channel and state instance, the bind, then serving followed by the
cleanup that marks not-running and clears the shared state.  `initDb` and
`bindResult` fix the two fallible environment steps and `serveOk` whether
serving ended by graceful shutdown or by an I/O error. -/
def startServer (g : ServerGlobals) (initDb : Except String Unit)
    (bindResult : Except String Unit) (serveOk : Bool)
    (freshChan freshState : Nat) : Except String Unit × ServerGlobals :=
  if isServerRunning g then
    (.error "Server is already running", g)
  else
    match initDb with
    | .error e => (.error e, g)
    | .ok () =>
      let g1 := { g with shutdownTx := some freshChan }
      let g2 := { g1 with serverState := some freshState }
      match bindResult with
      | .error e => (.error e, g2)
      | .ok () =>
        let g3 := { g2 with running := true }
        let g4 := { g3 with running := false, serverState := none }
        (if serveOk then .ok () else .error "Server error", g4)

/-- Mirrors `stop_server` in `server.rs`: a no-op success when not running;
otherwise take the shutdown sender and fire it.  The third component is the
channel the shutdown signal was sent on, if any. -/
def stopServer (g : ServerGlobals) : Except String Unit × ServerGlobals × Option Nat :=
  if !(isServerRunning g) then
    (.ok (), g, none)
  else
    (.ok (), { g with shutdownTx := none }, g.shutdownTx)

/-- The timeout error message `prompt_handler` persists and returns, namely
`format!("Request timed out after {}ms", timeout)` at the effective
timeout. -/
def timeoutMessage (body : PromptRequestBody) : String :=
  "Request timed out after " ++
    toString (min (body.timeout.getD DEFAULT_TIMEOUT_MS) MAX_TIMEOUT_MS) ++ "ms"

/-- Demonstration state with one entry in each pending table, used by
witnesses. -/
def demoPendingState : CouncilServerState :=
  { extension_ws := some ⟨0⟩,
    pending_requests := [("a", ⟨"a", 5⟩)],
    pending_proxy_requests := [("b", ⟨6⟩)] }

/-! ### Shared lemmas about the tables and the store -/

/-- Erasing a key from an association list makes its lookup fail. -/
theorem lookup_filter_ne {α : Type} (tbl : List (String × α)) (k : String) :
    (tbl.filter (fun p => p.1 != k)).lookup k = none := by
  induction tbl with
  | nil => rfl
  | cons hd tl ih =>
    obtain ⟨a, b⟩ := hd
    by_cases h : a = k
    · simpa [List.filter_cons, h] using ih
    · have hb : (a != k) = true := bne_iff_ne.mpr h
      have hk : (k == a) = false := beq_eq_false_iff_ne.mpr (Ne.symm h)
      simp [List.filter_cons, hb, List.lookup_cons, hk, ih]

/-- Erasing an absent key leaves an association list unchanged. -/
theorem filter_ne_of_lookup_none {α : Type} (tbl : List (String × α)) (k : String)
    (h : tbl.lookup k = none) : tbl.filter (fun p => p.1 != k) = tbl := by
  induction tbl with
  | nil => rfl
  | cons hd tl ih =>
    obtain ⟨a, b⟩ := hd
    rw [List.lookup_cons] at h
    cases hka : (k == a) with
    | true => rw [hka] at h; simp at h
    | false =>
      rw [hka] at h
      have hne : k ≠ a := by
        intro hh
        rw [hh] at hka
        simp at hka
      have hb : (a != k) = true := bne_iff_ne.mpr (Ne.symm hne)
      simp [List.filter_cons, hb, ih h]

/-- Rows touched by `update_request_error` that carry the targeted id end up
with status `error` and the given message. -/
theorem mem_updateRequestError (db : Db) (i m : String) (n : Int) :
    ∀ row ∈ updateRequestError db i m n, row.id = i →
      row.status = "error" ∧ row.error = some m := by
  intro row hrow hid
  obtain ⟨x, hx, rfl⟩ := List.mem_map.mp hrow
  unfold errorRow at hid ⊢
  by_cases h : x.id = i
  · simp [h]
  · have hb : (x.id == i) = false := beq_eq_false_iff_ne.mpr h
    rw [hb] at hid
    simp at hid
    exact absurd hid h

/-- Mapping a row transformer that preserves ids preserves the id column. -/
theorem ids_map_preserve (f : DbRow → DbRow) (hf : ∀ r, (f r).id = r.id) (db : Db) :
    (db.map f).map DbRow.id = db.map DbRow.id := by
  induction db with
  | nil => rfl
  | cons hd tl ih => simp [hf, ih]

/-- `processingRow` preserves the id. -/
theorem processingRow_id (i : String) (n : Int) (r : DbRow) :
    (processingRow i n r).id = r.id := by
  unfold processingRow
  split <;> rfl

/-- `completedRow` preserves the id. -/
theorem completedRow_id (i : String) (resp : CouncilResponse) (n : Int) (r : DbRow) :
    (completedRow i resp n r).id = r.id := by
  unfold completedRow
  split <;> rfl

/-- `errorRow` preserves the id. -/
theorem errorRow_id (i m : String) (n : Int) (r : DbRow) :
    (errorRow i m n r).id = r.id := by
  unfold errorRow
  split <;> rfl

/-- Descending insertion grows the length by one. -/
theorem length_insertByCreatedDesc (r : DbRow) (l : List DbRow) :
    (insertByCreatedDesc r l).length = l.length + 1 := by
  induction l with
  | nil => rfl
  | cons x xs ih =>
    unfold insertByCreatedDesc
    split
    · simp [ih]
    · simp

/-- The descending sort preserves the length. -/
theorem length_sortByCreatedDesc (l : List DbRow) :
    (sortByCreatedDesc l).length = l.length := by
  induction l with
  | nil => rfl
  | cons x xs ih => simp [sortByCreatedDesc, length_insertByCreatedDesc, ih]

/-- Membership in a descending insertion. -/
theorem mem_insertByCreatedDesc {x r : DbRow} {l : List DbRow} :
    x ∈ insertByCreatedDesc r l ↔ x = r ∨ x ∈ l := by
  induction l with
  | nil => simp [insertByCreatedDesc]
  | cons y ys ih =>
    unfold insertByCreatedDesc
    split
    · simp only [List.mem_cons, ih]
      tauto
    · simp only [List.mem_cons]

/-- The descending sort preserves membership. -/
theorem mem_sortByCreatedDesc {x : DbRow} {l : List DbRow} :
    x ∈ sortByCreatedDesc l ↔ x ∈ l := by
  induction l with
  | nil => simp [sortByCreatedDesc]
  | cons y ys ih => simp [sortByCreatedDesc, mem_insertByCreatedDesc, ih]

/-- Pruning with a budget at least the table size deletes nothing. -/
theorem cleanup_eq_self_of_le (k : Nat) (db : Db) (h : db.length ≤ k) :
    cleanupOldRequests k db = db := by
  unfold cleanupOldRequests
  have hs : (sortByCreatedDesc db).take k = sortByCreatedDesc db :=
    List.take_of_length_le (by rw [length_sortByCreatedDesc]; exact h)
  rw [hs]
  apply List.filter_eq_self.mpr
  intro r hr
  exact List.elem_eq_true_of_mem
    (List.mem_map.mpr ⟨r, mem_sortByCreatedDesc.mpr hr, rfl⟩)

/-- When the table's ids are pairwise distinct (the primary-key invariant),
pruning leaves at most `keep_count` rows. -/
theorem length_cleanup_le (k : Nat) (db : Db) (h : (db.map DbRow.id).Nodup) :
    (cleanupOldRequests k db).length ≤ k := by
  unfold cleanupOldRequests
  have hsub : ∀ x ∈ (db.filter
      (fun r => (((sortByCreatedDesc db).take k).map DbRow.id).contains r.id)).map DbRow.id,
      x ∈ ((sortByCreatedDesc db).take k).map DbRow.id := by
    intro x hx
    obtain ⟨r, hr, rfl⟩ := List.mem_map.mp hx
    exact List.mem_of_elem_eq_true (List.mem_filter.mp hr).2
  have hnd : ((db.filter
      (fun r => (((sortByCreatedDesc db).take k).map DbRow.id).contains r.id)).map DbRow.id).Nodup :=
    List.Nodup.sublist (List.Sublist.map DbRow.id (List.filter_sublist db)) h
  have hle := (List.Nodup.subperm hnd hsub).length_le
  rw [List.length_map] at hle
  refine hle.trans ?_
  rw [List.length_map, List.length_take]
  exact min_le_left _ _

/-- `processingRow` preserves the creation timestamp. -/
theorem processingRow_created (i : String) (n : Int) (r : DbRow) :
    (processingRow i n r).created_at = r.created_at := by
  unfold processingRow
  split <;> rfl

/-- `completedRow` preserves the creation timestamp. -/
theorem completedRow_created (i : String) (resp : CouncilResponse) (n : Int) (r : DbRow) :
    (completedRow i resp n r).created_at = r.created_at := by
  unfold completedRow
  split <;> rfl

/-- `errorRow` preserves the creation timestamp. -/
theorem errorRow_created (i m : String) (n : Int) (r : DbRow) :
    (errorRow i m n r).created_at = r.created_at := by
  unfold errorRow
  split <;> rfl

/-- Appending a row at least as recent as every other row sorts it to the
front of the descending order. -/
theorem sortByCreatedDesc_append_newest (l : Db) (x : DbRow)
    (h : ∀ r ∈ l, r.created_at ≤ x.created_at) :
    sortByCreatedDesc (l ++ [x]) = x :: sortByCreatedDesc l := by
  induction l with
  | nil => rfl
  | cons y ys ih =>
    have hy : y.created_at ≤ x.created_at := h y (List.mem_cons_self y ys)
    have hys : ∀ r ∈ ys, r.created_at ≤ x.created_at :=
      fun r hr => h r (List.mem_cons_of_mem y hr)
    show insertByCreatedDesc y (sortByCreatedDesc (ys ++ [x])) =
      x :: insertByCreatedDesc y (sortByCreatedDesc ys)
    rw [ih hys]
    rw [show insertByCreatedDesc y (x :: sortByCreatedDesc ys) =
        if y.created_at ≤ x.created_at then x :: insertByCreatedDesc y (sortByCreatedDesc ys)
        else y :: x :: sortByCreatedDesc ys from rfl,
      if_pos hy]

/-- With a positive retention budget, pruning keeps a row at least as
recent as every other row: it sorts first, so its id is among the kept
ids. -/
theorem cleanup_keeps_newest (k : Nat) (hk : 0 < k) (l : Db) (x : DbRow)
    (h : ∀ r ∈ l, r.created_at ≤ x.created_at) :
    x ∈ cleanupOldRequests k (l ++ [x]) := by
  simp only [cleanupOldRequests]
  rw [sortByCreatedDesc_append_newest l x h]
  apply List.mem_filter.mpr
  refine ⟨List.mem_append_right _ (List.mem_singleton.mpr rfl), ?_⟩
  cases k with
  | zero => exact absurd hk (by decide)
  | succ n =>
    simp only [List.take_succ_cons, List.map_cons]
    exact List.elem_eq_true_of_mem (List.mem_cons_self _ _)

/-! ### The claims -/

/-- C4: take-then-take on the same correlation id returns nothing the
second time, for both pending tables: `take_pending_request` and
`take_pending_proxy_request` return the stored entry and remove it, so a
second take (with no intervening registration) finds nothing and a second
resolution of the same id is a no-op. -/
theorem takePending_consumed_once (s : CouncilServerState) (id : String) :
    (takePendingRequest s id).1 = s.pending_requests.lookup id ∧
    ((takePendingRequest s id).2).pending_requests.lookup id = none ∧
    (takePendingRequest (takePendingRequest s id).2 id).1 = none ∧
    (takePendingProxyRequest s id).1 = s.pending_proxy_requests.lookup id ∧
    ((takePendingProxyRequest s id).2).pending_proxy_requests.lookup id = none ∧
    (takePendingProxyRequest (takePendingProxyRequest s id).2 id).1 = none := by
  refine ⟨rfl, ?_, ?_, rfl, ?_, ?_⟩ <;>
    simp [takePendingRequest, takePendingProxyRequest, tableTake, lookup_filter_ne]

/-- C5: `reject_all_pending` empties both pending tables, and every entry
registered in either table beforehand is resolved with a failure value
carrying the given reason (for council entries a `CouncilResponse` with
`success = false` and `error = some reason`; for proxy entries the JSON
object with `error` field set to the reason). -/
theorem rejectAllPending_spec (s : CouncilServerState) (reason : String) :
    (rejectAllPending s reason).1.pending_requests = [] ∧
    (rejectAllPending s reason).1.pending_proxy_requests = [] ∧
    (∀ e ∈ s.pending_requests,
      (e.2.chan, rejectionResponse e.2.request_id reason) ∈ (rejectAllPending s reason).2.1 ∧
      (rejectionResponse e.2.request_id reason).success = false ∧
      (rejectionResponse e.2.request_id reason).error = some reason) ∧
    (∀ e ∈ s.pending_proxy_requests,
      (e.2.chan, Json.obj [("error", Json.str reason)]) ∈ (rejectAllPending s reason).2.2) := by
  refine ⟨rfl, rfl, ?_, ?_⟩
  · intro e he
    exact ⟨List.mem_map.mpr ⟨e, he, rfl⟩, rfl, rfl⟩
  · intro e he
    exact List.mem_map.mpr ⟨e, he, rfl⟩

/-- Witness for `rejectAllPending_spec` at a concrete state. -/
theorem rejectAllPending_spec_witness :
    (rejectAllPending demoPendingState "gone").1.pending_requests = [] ∧
    (5, rejectionResponse "a" "gone") ∈ (rejectAllPending demoPendingState "gone").2.1 ∧
    (6, Json.obj [("error", Json.str "gone")]) ∈ (rejectAllPending demoPendingState "gone").2.2 :=
  ⟨(rejectAllPending_spec demoPendingState "gone").1,
   ((rejectAllPending_spec demoPendingState "gone").2.2.1 ("a", ⟨"a", 5⟩)
     (List.mem_singleton.mpr rfl)).1,
   (rejectAllPending_spec demoPendingState "gone").2.2.2 ("b", ⟨6⟩)
     (List.mem_singleton.mpr rfl)⟩

/-- C9: `stop_server` on a non-running server returns success, changes no
global state and fires no shutdown signal; `start_server` on a running
server returns the "already running" error and leaves the globals — hence
the existing running instance — untouched. -/
theorem lifecycle_idempotence (g : ServerGlobals) (i b : Except String Unit)
    (sv : Bool) (c st : Nat) :
    (g.running = false → stopServer g = (.ok (), g, none)) ∧
    (g.running = true →
      startServer g i b sv c st = (.error "Server is already running", g)) := by
  constructor <;> intro h <;> simp [stopServer, startServer, isServerRunning, h]

/-- Witness for `lifecycle_idempotence` at concrete globals. -/
theorem lifecycle_idempotence_witness :
    stopServer ⟨false, none, none⟩ = (.ok (), ⟨false, none, none⟩, none) ∧
    startServer ⟨true, some 1, some 2⟩ (.ok ()) (.ok ()) true 3 4 =
      (.error "Server is already running", ⟨true, some 1, some 2⟩) :=
  ⟨(lifecycle_idempotence ⟨false, none, none⟩ (.ok ()) (.ok ()) true 3 4).1 rfl,
   (lifecycle_idempotence ⟨true, some 1, some 2⟩ (.ok ()) (.ok ()) true 3 4).2 rfl⟩

/-- C10: whatever the connection slot holds when an extension session's
receive loop terminates — including a different, newer connection that
replaced this session's own — the unconditional cleanup empties the slot,
drains both pending tables, and fails every entry that was pending at loop
end (in particular entries registered under the newer connection) with
reason "Extension disconnected". -/
theorem staleSocketCleanup_clobbers (s : CouncilServerState) (connTx : Nat)
    (events : List SocketEvent) (newer : ExtensionConnection)
    (_hnew : (runSocketEvents (setExtension s ⟨connTx⟩) events).extension_ws = some newer) :
    (handleExtensionSocket s connTx events).1.extension_ws = none ∧
    (handleExtensionSocket s connTx events).1.pending_requests = [] ∧
    (handleExtensionSocket s connTx events).1.pending_proxy_requests = [] ∧
    (∀ e ∈ (runSocketEvents (setExtension s ⟨connTx⟩) events).pending_requests,
      (e.2.chan, rejectionResponse e.2.request_id "Extension disconnected")
        ∈ (handleExtensionSocket s connTx events).2.1) ∧
    (∀ e ∈ (runSocketEvents (setExtension s ⟨connTx⟩) events).pending_proxy_requests,
      (e.2.chan, Json.obj [("error", Json.str "Extension disconnected")])
        ∈ (handleExtensionSocket s connTx events).2.2) := by
  refine ⟨rfl, rfl, rfl, ?_, ?_⟩ <;> intro e he <;>
    exact List.mem_map.mpr ⟨e, he, rfl⟩

/-- Witness for `staleSocketCleanup_clobbers`: a state with a pending entry
and an empty event list, where the slot at loop end holds this session's
(from the stale session's point of view: a newer) connection. -/
theorem staleSocketCleanup_clobbers_witness :
    (handleExtensionSocket demoPendingState 9 []).1.extension_ws = none ∧
    (5, rejectionResponse "a" "Extension disconnected")
      ∈ (handleExtensionSocket demoPendingState 9 []).2.1 :=
  ⟨(staleSocketCleanup_clobbers demoPendingState 9 [] ⟨9⟩ rfl).1,
   (staleSocketCleanup_clobbers demoPendingState 9 [] ⟨9⟩ rfl).2.2.2.1 ("a", ⟨"a", 5⟩)
     (List.mem_singleton.mpr rfl)⟩

/-- C7: an inbound `council_response` whose payload carries a recoverable
string `requestId` but fails to deserialize into the full council-response
shape still consumes and resolves the matching pending council entry, with
a synthesized failure response (`success = false`) whose error text carries
the parse error. -/
theorem councilParseFailure_still_resolves
    (s : CouncilServerState) (msg : WSMessage) (payload : Json)
    (rid e : String) (pending : PendingRequest)
    (hp : msg.payload = some payload)
    (hrid : (payload.getField "requestId").bind Json.asStr = some rid)
    (hparse : parseCouncilResponse payload = .error e)
    (hpend : s.pending_requests.lookup rid = some pending) :
    handleCouncilResponse s msg =
      ({ s with pending_requests := s.pending_requests.filter (fun p => p.1 != rid) },
       .resolved pending.chan
         { request_id := rid, success := false, stage1 := none, stage2 := none,
           stage3 := none, metadata := none,
           error := some ("Failed to parse response: " ++ e), duration := none }) := by
  simp [handleCouncilResponse, hp, hrid, hparse, takePendingRequest, tableTake, hpend]

/-- A payload that carries a `requestId` but no `success` flag, so that the
full council-response parse fails. -/
def badPayload : Json := Json.obj [("requestId", Json.str "a")]

/-- Witness for `councilParseFailure_still_resolves` at a concrete state and
payload. -/
theorem councilParseFailure_still_resolves_witness :
    handleCouncilResponse demoPendingState ⟨"council_response", some badPayload, none⟩ =
      ({ demoPendingState with pending_requests := [] },
       .resolved 5
         { request_id := "a", success := false, stage1 := none, stage2 := none,
           stage3 := none, metadata := none,
           error := some ("Failed to parse response: " ++ "missing field success"),
           duration := none }) :=
  councilParseFailure_still_resolves demoPendingState
    ⟨"council_response", some badPayload, none⟩ badPayload "a" "missing field success"
    ⟨"a", 5⟩ rfl rfl rfl rfl

/-- C8: `GET /auth-status` never answers with an HTTP error status; with no
extension connected it reports `success = false`, a default auth status
whose three provider flags are all false, and an explanatory error string;
and when the proxied request fails to send, times out, or loses its
channel, it reports `success = false`, no status, and a non-empty error
text. -/
theorem authStatus_never_http_error (s : CouncilServerState) (nowTs : Int) (env : AuthEnv) :
    (authStatusHandler s nowTs env).1 = 200 ∧
    (s.extension_ws = none →
      (authStatusHandler s nowTs env).2 =
        { success := false,
          status := some { chatgpt := false, claude := false, gemini := false,
                           timestamp := nowTs },
          extension_connected := false, error := some "Extension not connected" }) ∧
    (∀ e, isExtensionConnected s = true → env.sendResult = some e → e ≠ "" →
      (authStatusHandler s nowTs env).2.success = false ∧
      (authStatusHandler s nowTs env).2.status = none ∧
      ∃ m, (authStatusHandler s nowTs env).2.error = some m ∧ m ≠ "") ∧
    (isExtensionConnected s = true → env.sendResult = none →
      (env.outcome = .timedOut ∨ env.outcome = .channelClosed) →
      (authStatusHandler s nowTs env).2.success = false ∧
      (authStatusHandler s nowTs env).2.status = none ∧
      ∃ m, (authStatusHandler s nowTs env).2.error = some m ∧ m ≠ "") := by
  refine ⟨?_, ?_, ?_, ?_⟩
  · unfold authStatusHandler
    split
    · rfl
    · cases env.sendResult with
      | some e => rfl
      | none => cases env.outcome <;> rfl
  · intro h
    simp [authStatusHandler, isExtensionConnected, h]
  · intro e hc hs he
    unfold authStatusHandler
    rw [hc, hs]
    exact ⟨rfl, rfl, e, rfl, he⟩
  · intro hc hs ho
    unfold authStatusHandler
    rw [hc, hs]
    rcases ho with h | h <;> rw [h] <;>
      exact ⟨rfl, rfl, "Timeout waiting for auth status", rfl, by decide⟩

/-- Witness for `authStatus_never_http_error`, exercising the no-extension,
send-failure and timeout shapes at concrete inputs. -/
theorem authStatus_never_http_error_witness :
    (authStatusHandler CouncilServerState.new 7 ⟨none, .timedOut⟩).2 =
      { success := false,
        status := some { chatgpt := false, claude := false, gemini := false,
                         timestamp := 7 },
        extension_connected := false, error := some "Extension not connected" } ∧
    (authStatusHandler demoPendingState 7 ⟨some "Extension not connected", .timedOut⟩).2.status
      = none ∧
    (authStatusHandler demoPendingState 7 ⟨none, .timedOut⟩).2.success = false :=
  ⟨(authStatus_never_http_error CouncilServerState.new 7 ⟨none, .timedOut⟩).2.1 rfl,
   ((authStatus_never_http_error demoPendingState 7
      ⟨some "Extension not connected", .timedOut⟩).2.2.1 "Extension not connected"
      rfl rfl (by decide)).2.1,
   ((authStatus_never_http_error demoPendingState 7 ⟨none, .timedOut⟩).2.2.2 rfl rfl
      (Or.inl rfl)).1⟩

/-- C3 counterexample: a `POST /prompt` with an empty query submitted while
no extension is connected is answered 400 / `INVALID_REQUEST` (the
validation check runs before the connection check), not 503 /
`NO_EXTENSION`, refuting the claim as stated over every request. -/
theorem promptNoExtension_counterexample :
    (promptHandler CouncilServerState.new [] ⟨"", none, none⟩ "r1" 0 0
      ⟨none, .timedOut, 0⟩).httpStatus = 400 ∧
    (promptHandler CouncilServerState.new [] ⟨"", none, none⟩ "r1" 0 0
      ⟨none, .timedOut, 0⟩).body.error_code = some "INVALID_REQUEST" ∧
    ¬((promptHandler CouncilServerState.new [] ⟨"", none, none⟩ "r1" 0 0
      ⟨none, .timedOut, 0⟩).httpStatus = 503) := by
  refine ⟨rfl, rfl, ?_⟩
  intro h
  rw [show (promptHandler CouncilServerState.new [] ⟨"", none, none⟩ "r1" 0 0
      ⟨none, .timedOut, 0⟩).httpStatus = 400 from rfl] at h
  exact absurd h (by decide)

/-- C3 (amended): a `POST /prompt` whose query is non-empty after trimming,
submitted while no extension is connected, is answered 503 /
`NO_EXTENSION` with error text "Extension not connected", and no row is
written to the persistence store. -/
theorem promptNoExtension_spec (s : CouncilServerState) (db : Db)
    (body : PromptRequestBody) (requestId : String) (chan : Nat) (now : Int)
    (env : PromptEnv)
    (hq : (rustTrim body.query).isEmpty = false)
    (hconn : s.extension_ws = none) :
    (promptHandler s db body requestId chan now env).httpStatus = 503 ∧
    (promptHandler s db body requestId chan now env).body.error_code =
      some "NO_EXTENSION" ∧
    (promptHandler s db body requestId chan now env).body.error =
      some "Extension not connected" ∧
    (promptHandler s db body requestId chan now env).db = db := by
  simp [promptHandler, hq, isExtensionConnected, hconn, errorResponseBody, ErrorCode.text]

/-- Witness for `promptNoExtension_spec` at a concrete request. -/
theorem promptNoExtension_spec_witness :
    (promptHandler CouncilServerState.new [] ⟨"hi", none, none⟩ "r1" 0 0
      ⟨none, .timedOut, 0⟩).httpStatus = 503 ∧
    (promptHandler CouncilServerState.new [] ⟨"hi", none, none⟩ "r1" 0 0
      ⟨none, .timedOut, 0⟩).db = [] :=
  ⟨(promptNoExtension_spec CouncilServerState.new [] ⟨"hi", none, none⟩ "r1" 0 0
      ⟨none, .timedOut, 0⟩ (by decide) rfl).1,
   (promptNoExtension_spec CouncilServerState.new [] ⟨"hi", none, none⟩ "r1" 0 0
      ⟨none, .timedOut, 0⟩ (by decide) rfl).2.2.2⟩

/-- C2: a `POST /prompt` whose extension response does not arrive before
the effective timeout is answered 504 / `TIMEOUT` with error text
"Request timed out after Nms" for the effective timeout N; any persisted
row for the request carries status `error` with that message; and a late
`council_response` for the same correlation id finds no pending entry and
is dropped with the state — hence every other in-flight request —
unchanged. -/
theorem promptTimeout_spec (s : CouncilServerState) (db : Db)
    (body : PromptRequestBody) (requestId : String) (chan : Nat) (now : Int)
    (env : PromptEnv)
    (hq : (rustTrim body.query).isEmpty = false)
    (hconn : isExtensionConnected s = true)
    (hsend : env.sendResult = none)
    (hout : env.outcome = .timedOut) :
    (promptHandler s db body requestId chan now env).httpStatus = 504 ∧
    (promptHandler s db body requestId chan now env).body.error_code = some "TIMEOUT" ∧
    (promptHandler s db body requestId chan now env).body.error =
      some (timeoutMessage body) ∧
    (∀ row ∈ (promptHandler s db body requestId chan now env).db, row.id = requestId →
      row.status = "error" ∧ row.error = some (timeoutMessage body)) ∧
    (promptHandler s db body requestId chan now env).state.pending_requests.lookup
      requestId = none ∧
    (∀ p : Json, (p.getField "requestId").bind Json.asStr = some requestId →
      handleCouncilResponse (promptHandler s db body requestId chan now env).state
          ⟨"council_response", some p, none⟩ =
        ((promptHandler s db body requestId chan now env).state,
         .noPending requestId)) := by
  have hred : promptHandler s db body requestId chan now env =
      ⟨504,
       errorResponseBody (timeoutMessage body) .timeoutCode (some requestId),
       updateRequestError
         (updateRequestProcessing
           (match saveRequest db requestId (rustTrim body.query)
               (body.tier.getD "normal") now with
            | .ok d => d
            | .error _ => db) requestId now)
         requestId (timeoutMessage body) now,
       (takePendingRequest (addPendingRequest s requestId chan) requestId).2⟩ := by
    simp [promptHandler, hq, hconn, hsend, hout, timeoutMessage]
  rw [hred]
  have hlook : ((takePendingRequest (addPendingRequest s requestId chan)
      requestId).2).pending_requests.lookup requestId = none := by
    simp [takePendingRequest, tableTake, lookup_filter_ne]
  refine ⟨rfl, rfl, rfl, mem_updateRequestError _ _ _ _, hlook, ?_⟩
  intro p hp
  have hfilter := filter_ne_of_lookup_none _ requestId hlook
  simp [handleCouncilResponse, hp, takePendingRequest, tableTake, lookup_filter_ne,
    hfilter]

/-- Witness for `promptTimeout_spec` at a concrete request with a 5000 ms
requested timeout. -/
theorem promptTimeout_spec_witness :
    (promptHandler demoPendingState [] ⟨"hi", none, some 5000⟩ "r1" 1 0
      ⟨none, .timedOut, 0⟩).httpStatus = 504 ∧
    (promptHandler demoPendingState [] ⟨"hi", none, some 5000⟩ "r1" 1 0
      ⟨none, .timedOut, 0⟩).body.error = some "Request timed out after 5000ms" :=
  ⟨(promptTimeout_spec demoPendingState [] ⟨"hi", none, some 5000⟩ "r1" 1 0
      ⟨none, .timedOut, 0⟩ (by decide) rfl rfl rfl).1,
   ((promptTimeout_spec demoPendingState [] ⟨"hi", none, some 5000⟩ "r1" 1 0
      ⟨none, .timedOut, 0⟩ (by decide) rfl rfl rfl).2.2.1).trans (by decide)⟩

/-- `save_request` on a fresh id succeeds and appends the fresh row. -/
theorem saveRequest_fresh (db : Db) (id qry tier : String) (now : Int)
    (h : id ∉ db.map DbRow.id) :
    saveRequest db id qry tier now = .ok (db ++ [freshRow id qry tier now]) := by
  have hany : db.any (fun r => r.id == id) = false := by
    apply List.any_eq_false.mpr
    intro x hx hbeq
    exact h (List.mem_map.mpr ⟨x, hx, beq_iff_eq.mp hbeq⟩)
  simp [saveRequest, hany]

/-- C1: a valid non-empty `POST /prompt` with an extension connected whose
response arrives within the effective timeout persists a row for the
generated request id whose terminal status is `completed` exactly when the
extension's success flag is true and `error` when it is false, and the
HTTP response's `requestId` equals that row's id.  The standing invariants
assumed are the freshness of the generated UUID and clock monotonicity (no
stored row was created after `now`), under which the new row is the most
recent and survives the retention pruning whatever the table's size. -/
theorem promptDelivered_spec (s : CouncilServerState) (db : Db)
    (body : PromptRequestBody) (requestId : String) (chan : Nat) (now : Int)
    (env : PromptEnv) (r : CouncilResponse)
    (hq : (rustTrim body.query).isEmpty = false)
    (hconn : isExtensionConnected s = true)
    (hsend : env.sendResult = none)
    (hout : env.outcome = .delivered r)
    (hfresh : requestId ∉ db.map DbRow.id)
    (hclock : ∀ row ∈ db, row.created_at ≤ now) :
    (promptHandler s db body requestId chan now env).httpStatus = 200 ∧
    (promptHandler s db body requestId chan now env).body.success = r.success ∧
    (promptHandler s db body requestId chan now env).body.request_id = some requestId ∧
    ∃ row ∈ (promptHandler s db body requestId chan now env).db,
      row.id = requestId ∧
      row.status = (if r.success then "completed" else "error") := by
  have hsave := saveRequest_fresh db requestId (rustTrim body.query)
    (body.tier.getD "normal") now hfresh
  have hred : promptHandler s db body requestId chan now env =
      ⟨200,
       { success := r.success, request_id := some requestId,
         stage1 := r.stage1, stage2 := r.stage2, stage3 := r.stage3,
         metadata := r.metadata, error := r.error,
         error_code := if r.success then none else some ErrorCode.councilError.text,
         duration := some env.elapsedMs },
       cleanupOldRequests 50
         (if r.success then
            updateRequestCompleted
              (updateRequestProcessing
                (db ++ [freshRow requestId (rustTrim body.query)
                  (body.tier.getD "normal") now]) requestId now)
              requestId r now
          else
            updateRequestError
              (updateRequestProcessing
                (db ++ [freshRow requestId (rustTrim body.query)
                  (body.tier.getD "normal") now]) requestId now)
              requestId (r.error.getD "Unknown error") now),
       addPendingRequest s requestId chan⟩ := by
    simp [promptHandler, hq, hconn, hsend, hout, hsave]
  rw [hred]
  refine ⟨rfl, rfl, rfl, ?_⟩
  by_cases hrs : r.success
  · simp only [hrs, if_true]
    have hdb3 : updateRequestCompleted
        (updateRequestProcessing
          (db ++ [freshRow requestId (rustTrim body.query)
            (body.tier.getD "normal") now]) requestId now) requestId r now =
        updateRequestCompleted (updateRequestProcessing db requestId now) requestId r now
          ++ [completedRow requestId r now (processingRow requestId now
                (freshRow requestId (rustTrim body.query)
                  (body.tier.getD "normal") now))] := by
      simp [updateRequestProcessing, updateRequestCompleted]
    have hcre : ∀ row ∈ updateRequestCompleted (updateRequestProcessing db requestId now)
        requestId r now,
        row.created_at ≤ (completedRow requestId r now (processingRow requestId now
          (freshRow requestId (rustTrim body.query)
            (body.tier.getD "normal") now))).created_at := by
      intro row hrow
      simp only [updateRequestCompleted, updateRequestProcessing] at hrow
      obtain ⟨y, hy, rfl⟩ := List.mem_map.mp hrow
      obtain ⟨z, hz, rfl⟩ := List.mem_map.mp hy
      rw [completedRow_created, processingRow_created,
        completedRow_created, processingRow_created]
      exact hclock z hz
    rw [hdb3]
    exact ⟨completedRow requestId r now (processingRow requestId now
        (freshRow requestId (rustTrim body.query) (body.tier.getD "normal") now)),
      cleanup_keeps_newest 50 (by decide) _ _ hcre,
      by simp [completedRow, processingRow, freshRow],
      by simp [completedRow, processingRow, freshRow]⟩
  · simp only [hrs, if_false, Bool.false_eq_true]
    have hdb3 : updateRequestError
        (updateRequestProcessing
          (db ++ [freshRow requestId (rustTrim body.query)
            (body.tier.getD "normal") now]) requestId now) requestId
          (r.error.getD "Unknown error") now =
        updateRequestError (updateRequestProcessing db requestId now) requestId
            (r.error.getD "Unknown error") now
          ++ [errorRow requestId (r.error.getD "Unknown error") now (processingRow requestId now
                (freshRow requestId (rustTrim body.query)
                  (body.tier.getD "normal") now))] := by
      simp [updateRequestProcessing, updateRequestError]
    have hcre : ∀ row ∈ updateRequestError (updateRequestProcessing db requestId now)
        requestId (r.error.getD "Unknown error") now,
        row.created_at ≤ (errorRow requestId (r.error.getD "Unknown error") now
          (processingRow requestId now (freshRow requestId (rustTrim body.query)
            (body.tier.getD "normal") now))).created_at := by
      intro row hrow
      simp only [updateRequestError, updateRequestProcessing] at hrow
      obtain ⟨y, hy, rfl⟩ := List.mem_map.mp hrow
      obtain ⟨z, hz, rfl⟩ := List.mem_map.mp hy
      rw [errorRow_created, processingRow_created,
        errorRow_created, processingRow_created]
      exact hclock z hz
    rw [hdb3]
    exact ⟨errorRow requestId (r.error.getD "Unknown error") now (processingRow requestId now
        (freshRow requestId (rustTrim body.query) (body.tier.getD "normal") now)),
      cleanup_keeps_newest 50 (by decide) _ _ hcre,
      by simp [errorRow, processingRow, freshRow],
      by simp [errorRow, processingRow, freshRow]⟩

/-- Witness for `promptDelivered_spec`: a concrete successful delivery. -/
theorem promptDelivered_spec_witness :
    (promptHandler demoPendingState [] ⟨"hi", none, some 5000⟩ "r1" 1 0
      ⟨none, .delivered (rejectionResponse "r1" "nope"), 42⟩).body.request_id = some "r1" ∧
    ∃ row ∈ (promptHandler demoPendingState [] ⟨"hi", none, some 5000⟩ "r1" 1 0
      ⟨none, .delivered (rejectionResponse "r1" "nope"), 42⟩).db,
      row.id = "r1" ∧ row.status = (if (rejectionResponse "r1" "nope").success
        then "completed" else "error") :=
  ⟨(promptDelivered_spec demoPendingState [] ⟨"hi", none, some 5000⟩ "r1" 1 0
      ⟨none, .delivered (rejectionResponse "r1" "nope"), 42⟩ (rejectionResponse "r1" "nope")
      (by decide) rfl rfl rfl (by simp) (by simp)).2.2.1,
   (promptDelivered_spec demoPendingState [] ⟨"hi", none, some 5000⟩ "r1" 1 0
      ⟨none, .delivered (rejectionResponse "r1" "nope"), 42⟩ (rejectionResponse "r1" "nope")
      (by decide) rfl rfl rfl (by simp) (by simp)).2.2.2⟩

/-- The id column stays duplicate-free across the save step of
`prompt_handler` (which survives a primary-key violation by keeping the
old table). -/
theorem ids_save_nodup (db : Db) (id qry tier : String) (now : Int)
    (h : (db.map DbRow.id).Nodup) :
    (((match saveRequest db id qry tier now with
       | .ok d => d
       | .error _ => db) : Db).map DbRow.id).Nodup := by
  unfold saveRequest
  cases hany : db.any (fun r => r.id == id) with
  | true => simpa [hany] using h
  | false =>
    have hfresh : id ∉ db.map DbRow.id := by
      intro hmem
      obtain ⟨x, hx, hxid⟩ := List.mem_map.mp hmem
      exact (List.any_eq_false.mp hany x hx) (beq_iff_eq.mpr hxid)
    simp only [hany, Bool.false_eq_true, if_false, List.map_append]
    refine List.Nodup.append h (List.nodup_singleton _) ?_
    intro a ha hb
    simp only [List.map_cons, List.map_nil, List.mem_singleton] at hb
    subst hb
    exact hfresh ha

/-- C6: after any completed `POST /prompt` exchange (the extension answered
within the timeout, with either success flag), the persistence store holds
at most 50 rows: `cleanup_old_requests(50)` runs at the end of the
completion branch and keeps only the 50 most recently created rows.  The
pairwise distinctness of the stored ids (the table's primary-key
invariant) is the standing hypothesis. -/
theorem promptCompletion_prunes (s : CouncilServerState) (db : Db)
    (body : PromptRequestBody) (requestId : String) (chan : Nat) (now : Int)
    (env : PromptEnv) (r : CouncilResponse)
    (hids : (db.map DbRow.id).Nodup)
    (hq : (rustTrim body.query).isEmpty = false)
    (hconn : isExtensionConnected s = true)
    (hsend : env.sendResult = none)
    (hout : env.outcome = .delivered r) :
    (promptHandler s db body requestId chan now env).db.length ≤ 50 := by
  have hred : (promptHandler s db body requestId chan now env).db =
      cleanupOldRequests 50
        (if r.success then
           updateRequestCompleted
             (updateRequestProcessing
               (match saveRequest db requestId (rustTrim body.query)
                   (body.tier.getD "normal") now with
                | .ok d => d
                | .error _ => db) requestId now)
             requestId r now
         else
           updateRequestError
             (updateRequestProcessing
               (match saveRequest db requestId (rustTrim body.query)
                   (body.tier.getD "normal") now with
                | .ok d => d
                | .error _ => db) requestId now)
             requestId (r.error.getD "Unknown error") now) := by
    simp [promptHandler, hq, hconn, hsend, hout]
  rw [hred]
  have h1 := ids_save_nodup db requestId (rustTrim body.query)
    (body.tier.getD "normal") now hids
  have h2 : (((updateRequestProcessing
      (match saveRequest db requestId (rustTrim body.query)
          (body.tier.getD "normal") now with
       | .ok d => d
       | .error _ => db) requestId now) : Db).map DbRow.id).Nodup := by
    rw [updateRequestProcessing, ids_map_preserve _ (processingRow_id requestId now)]
    exact h1
  apply length_cleanup_le
  by_cases hrs : r.success
  · rw [if_pos hrs, updateRequestCompleted,
      ids_map_preserve _ (completedRow_id requestId r now)]
    exact h2
  · rw [if_neg hrs, updateRequestError,
      ids_map_preserve _ (errorRow_id requestId (r.error.getD "Unknown error") now)]
    exact h2

/-- Witness for `promptCompletion_prunes` at a concrete completed request. -/
theorem promptCompletion_prunes_witness :
    (promptHandler demoPendingState [] ⟨"hi", none, some 5000⟩ "r1" 1 0
      ⟨none, .delivered (rejectionResponse "r1" "nope"), 42⟩).db.length ≤ 50 :=
  promptCompletion_prunes demoPendingState [] ⟨"hi", none, some 5000⟩ "r1" 1 0
    ⟨none, .delivered (rejectionResponse "r1" "nope"), 42⟩ (rejectionResponse "r1" "nope")
    (by simp) (by decide) rfl rfl rfl

end CouncilServer
